import Mathlib

/-!
Shallow embedding of the Soldering-Station client (PavelS2180/Soldering-Station).

Source files embedded:
  * `src/pc_app/main.py`   — `ConnectionManager`, `DataLogger`, `SolderingStationGUI`
  * `src/app_py/connection.py` — `Connection`
  * `src/app_py/temperature.py` — `Temperature`
  * `src/app_py/commands.py` — `Commands`

Python values are modelled by the inductive `PyVal`; machine floats are
idealised as rationals (`ℚ`), exceptions as `Except Unit`, transport
behaviour as explicit oracle parameters, and I/O as explicit event traces.
-/

namespace Station

/-- Model of a Python runtime value (the subset the client manipulates):
`None`, booleans, ints, floats (idealised as `ℚ`), strings, lists and
string-keyed dicts. -/
inductive PyVal where
  | none
  | bool (b : Bool)
  | int (n : Int)
  | float (q : ℚ)
  | str (s : String)
  | list (xs : List PyVal)
  | dict (kvs : List (String × PyVal))

/-- Python truthiness (`if x:`): `None`, `False`, `0`, `0.0`, `""`, `[]`, and
`\x7b\x7d` are falsy; everything else is truthy. -/
def PyVal.truthy : PyVal → Bool
  | .none => false
  | .bool b => b
  | .int n => decide (n ≠ 0)
  | .float q => decide (q ≠ 0)
  | .str s => decide (s ≠ "")
  | .list xs => !xs.isEmpty
  | .dict kvs => !kvs.isEmpty

/-- Association-list lookup modelling a Python dict read (our embedded dicts
are built with distinct keys, so first-match agrees with Python). -/
def pyLookup (kvs : List (String × PyVal)) (k : String) : Option PyVal :=
  match kvs with
  | [] => Option.none
  | (k', v) :: r => if k' = k then some v else pyLookup r k

/-- Python `d.get(k, default)`; raises (`AttributeError`) when the receiver is
not a dict, which the source can hit when a serial response (a `str`) flows
into dict-consuming code. -/
def PyVal.getd : PyVal → String → PyVal → Except Unit PyVal
  | .dict kvs, k, dflt => .ok ((pyLookup kvs k).getD dflt)
  | _, _, _ => .error ()

/-- Python `d[k]`: `KeyError` on a missing key, `TypeError` on a non-dict. -/
def PyVal.index : PyVal → String → Except Unit PyVal
  | .dict kvs, k =>
      match pyLookup kvs k with
      | some v => .ok v
      | Option.none => .error ()
  | _, _ => .error ()

/-- Decimal digit characters of a natural number, most significant first;
fuel-indexed so the recursion is structural (fuel `n + 1` always suffices). -/
def natStrAux : Nat → Nat → List Char
  | 0, _ => []
  | fuel + 1, n =>
      if n < 10 then [Nat.digitChar n]
      else natStrAux fuel (n / 10) ++ [Nat.digitChar (n % 10)]

/-- Decimal rendering of a natural number (models Python `str` on a
non-negative int). -/
def natStr (n : Nat) : String := ⟨natStrAux (n + 1) n⟩

/-- Decimal rendering of an integer (models Python `str(int)`). -/
def intStr (i : Int) : String :=
  if i < 0 then "-" ++ natStr i.natAbs else natStr i.natAbs

/-- Model of Python `str(x)` for the value shapes the client prints
(`phase` fields are strings, `remain` fields ints); compound shapes get a
simple rendering that no claim depends on. -/
def pyStr : PyVal → String
  | .none => "None"
  | .bool true => "True"
  | .bool false => "False"
  | .int n => intStr n
  | .float q => intStr q.num ++ "/" ++ natStr q.den
  | .str s => s
  | .list _ => "[...]"
  | .dict _ => "\x7b...\x7d"

/-- Splitting a character list on a separator, mirroring Python
`str.split(sep)` for a one-character separator: `""` yields `[""]`, and
adjacent separators yield empty fields. -/
def splitOnChar (sep : Char) : List Char → List (List Char)
  | [] => [[]]
  | c :: cs =>
      match splitOnChar sep cs with
      | [] => [[]]
      | g :: gs => if c = sep then [] :: g :: gs else (c :: g) :: gs

/-- Python `s.split(sep)` for a single-character separator. -/
def pySplit (s : String) (sep : Char) : List String :=
  (splitOnChar sep s.data).map (fun l => ⟨l⟩)

/-- Python `s.strip()`: drop leading and trailing whitespace. -/
def pyStrip (s : String) : String :=
  ⟨((s.data.dropWhile Char.isWhitespace).reverse.dropWhile Char.isWhitespace).reverse⟩

/-! ## `src/app_py/temperature.py` — class `Temperature` -/

/-- State of `Temperature` (`src/app_py/temperature.py`): the three stored
temperature slots.  They are initialised to the int `0` and — as the source
assigns the split fields directly — become *strings* after an update, so the
slots hold `PyVal`s. -/
structure Temperature where
  top_temp : PyVal
  bottom_temp : PyVal
  preheat_temp : PyVal

/-- The initial `Temperature` state (`__init__`): all three slots hold the
Python int `0`. -/
def Temperature.init : Temperature := ⟨.int 0, .int 0, .int 0⟩

/-- `Temperature.update_temperatures` (`src/app_py/temperature.py` lines
19–31): receive a line, and if it is truthy and splits on `','` into exactly
three fields, store the three (string) fields; otherwise leave all slots
unchanged.  The received line is passed explicitly (it is what
`self.connection.receive()` returned). -/
def Temperature.update_temperatures (t : Temperature) (data : String) : Temperature :=
  if data = "" then t
  else
    match pySplit data ',' with
    | [a, b, c] => { top_temp := .str a, bottom_temp := .str b, preheat_temp := .str c }
    | _ => t

/-- `Temperature.get_top_temp`. -/
def Temperature.get_top_temp (t : Temperature) : PyVal := t.top_temp

/-- `Temperature.get_bottom_temp`. -/
def Temperature.get_bottom_temp (t : Temperature) : PyVal := t.bottom_temp

/-- `Temperature.get_preheat_temp`. -/
def Temperature.get_preheat_temp (t : Temperature) : PyVal := t.preheat_temp

/-! ## `src/pc_app/main.py` — class `ConnectionManager` -/

/-- The two connection kinds of `ConnectionManager.connection_type`
(`'serial'` / `'wifi'`). -/
inductive ConnKind where
  | serial
  | wifi
deriving DecidableEq

/-- State of `ConnectionManager` (`src/pc_app/main.py` lines 27–34).  The
serial handle is modelled by the port name it was opened on. -/
structure ConnectionManager where
  connection_type : Option ConnKind
  serial_conn : Option String
  wifi_ip : Option String
  connected : Bool
deriving DecidableEq

/-- The initial `ConnectionManager` (`__init__`): everything unset,
`connected = False`. -/
def ConnectionManager.init : ConnectionManager :=
  ⟨Option.none, Option.none, Option.none, false⟩

/-- Oracle for one `serial.Serial(port, baud, timeout=1)` constructor call:
either it raises or it yields a handle. -/
inductive SerialOpen where
  | raise
  | opened
deriving DecidableEq

/-- Oracle for one `requests` call: either it raises (timeout, refused
connection, …) or it completes with a status code and a `.json()` outcome
(`.error` models a JSON-decode failure). -/
inductive HttpOutcome where
  | raise
  | response (status : Nat) (body : Except Unit PyVal)

/-- Oracle for one serial `write` + `readline().decode()` exchange. -/
inductive SerialOutcome where
  | writeRaise
  | readRaise
  | line (s : String)

/-- Everything the environment decides for one transport interaction. -/
structure TransportBehavior where
  http : HttpOutcome
  ser : SerialOutcome

/-- An observable transport I/O action (what is sent over serial or HTTP). -/
inductive IOEvent where
  | httpGet (url : String)
  | httpPost (url : String) (body : Option PyVal)
  | serialWrite (s : String)
  | serialRead
  | sockSend (s : String)
  | sockRecv

/-- `ConnectionManager.connect_serial` (lines 36–45): on a successful
`serial.Serial` construction store the handle, set the type and
`connected = True` and return `True`; on an exception return `False` with the
state untouched. -/
def ConnectionManager.connect_serial (cm : ConnectionManager) (port : String)
    (o : SerialOpen) : ConnectionManager × Bool :=
  match o with
  | .raise => (cm, false)
  | .opened =>
      ({ cm with serial_conn := some port, connection_type := some .serial,
                 connected := true }, true)

/-- `ConnectionManager.connect_wifi` (lines 47–59): probe
`GET http://<ip>/status`; on HTTP 200 store the ip, set the type and
`connected = True` and return `True`; on any exception or a non-200 status
return `False` with the state untouched. -/
def ConnectionManager.connect_wifi (cm : ConnectionManager) (ip : String)
    (o : HttpOutcome) : ConnectionManager × Bool :=
  match o with
  | .raise => (cm, false)
  | .response status _ =>
      if status = 200 then
        ({ cm with wifi_ip := some ip, connection_type := some .wifi,
                   connected := true }, true)
      else (cm, false)

/-- Rendering of `Option String` inside a Python f-string (`None` prints as
`"None"`). -/
def optFmt : Option String → String
  | some s => s
  | Option.none => "None"

/-- Body of `ConnectionManager.send_command` (lines 70–91) *without* the
`except` clause: the computation inside the `try:` block, whose `.error`
outcomes are the exceptions that the handler will catch.  The leading
`connected` check sits outside the `try` in the source and is kept here so
that this single definition is the whole function up to exception handling.
Returns the result together with the trace of transport I/O performed. -/
def ConnectionManager.send_command_exc (cm : ConnectionManager) (endpoint : String)
    (data : Option PyVal) (method : String) (tb : TransportBehavior) :
    Except Unit (Option PyVal) × List IOEvent :=
  if cm.connected = false then (.ok Option.none, [])
  else
    match cm.connection_type with
    | some .wifi =>
        let url := "http://" ++ optFmt cm.wifi_ip ++ "/" ++ endpoint
        let ev := if method = "GET" then IOEvent.httpGet url else IOEvent.httpPost url data
        match tb.http with
        | .raise => (.error (), [ev])
        | .response status body =>
            if status = 200 then
              match body with
              | .ok v => (.ok (some v), [ev])
              | .error _ => (.error (), [ev])
            else (.ok Option.none, [ev])
    | some .serial =>
        match cm.serial_conn with
        | Option.none => (.error (), [])
        | some _ =>
            match tb.ser with
            | .writeRaise => (.error (), [.serialWrite (endpoint ++ "\n")])
            | .readRaise => (.error (), [.serialWrite (endpoint ++ "\n"), .serialRead])
            | .line s =>
                (.ok (some (.str (pyStrip s))),
                 [.serialWrite (endpoint ++ "\n"), .serialRead])
    | Option.none => (.ok Option.none, [])

/-- `ConnectionManager.send_command` (lines 70–91) as the caller sees it: the
`except Exception` handler turns every exception raised in the body into the
return value `None`. -/
def ConnectionManager.send_command (cm : ConnectionManager) (endpoint : String)
    (data : Option PyVal) (method : String) (tb : TransportBehavior) :
    Option PyVal × List IOEvent :=
  match cm.send_command_exc endpoint data method tb with
  | (.ok r, tr) => (r, tr)
  | (.error _, tr) => (Option.none, tr)

/-! ## `src/app_py/connection.py` — class `Connection` -/

/-- A TCP socket handle as `Connection.connect_wifi` can leave it: created
but not yet connected, or connected to a host. -/
inductive SocketState where
  | fresh
  | connectedTo (ip : String)
deriving DecidableEq

/-- State of `Connection` (`src/app_py/connection.py`): connection type plus
the two optional handles. -/
structure Connection where
  connection_type : Option ConnKind
  serial_conn : Option String
  wifi_conn : Option SocketState
deriving DecidableEq

/-- The initial `Connection` (`__init__`). -/
def Connection.init : Connection := ⟨Option.none, Option.none, Option.none⟩

/-- Oracle for one `socket.socket(...)` + `connect((ip, 80))` attempt:
creation itself may raise, the TCP connect may raise, or both succeed. -/
inductive WifiOpen where
  | socketRaise
  | connectRaise
  | opened
deriving DecidableEq

/-- `Connection.connect_serial` (`src/app_py/connection.py` lines 14–20). -/
def Connection.connect_serial (c : Connection) (port : String) (o : SerialOpen) :
    Connection × Bool :=
  match o with
  | .raise => (c, false)
  | .opened => ({ c with serial_conn := some port }, true)

/-- `Connection.connect_wifi` (`src/app_py/connection.py` lines 21–28).  The
source first assigns `self.wifi_conn = socket.socket(...)` and only then
calls `connect`, so when the TCP connect raises, the fresh (unconnected)
socket object stays stored in `wifi_conn` even though `False` is returned. -/
def Connection.connect_wifi (c : Connection) (ip : String) (o : WifiOpen) :
    Connection × Bool :=
  match o with
  | .socketRaise => (c, false)
  | .connectRaise => ({ c with wifi_conn := some SocketState.fresh }, false)
  | .opened => ({ c with wifi_conn := some (SocketState.connectedTo ip) }, true)

/-- `Connection.send` (`src/app_py/connection.py` lines 30–35): write the
newline-terminated message over whichever handle matches the connection
type; with no matching type or handle, do nothing.  The return value is the
trace of transport I/O performed. -/
def Connection.send (c : Connection) (message : String) : List IOEvent :=
  match c.connection_type, c.serial_conn, c.wifi_conn with
  | some .serial, some _, _ => [.serialWrite (message ++ "\n")]
  | some .wifi, _, some _ => [.sockSend (message ++ "\n")]
  | _, _, _ => []

/-- `Connection.receive` (`src/app_py/connection.py` lines 37–42): read one
line (serial) or one chunk (wifi) — the content is what the oracle `line`
supplies — and return `""` with no I/O when no usable connection exists. -/
def Connection.receive (c : Connection) (line : String) : String × List IOEvent :=
  match c.connection_type, c.serial_conn, c.wifi_conn with
  | some .serial, some _, _ => (line, [.serialRead])
  | some .wifi, _, some _ => (line, [.sockRecv])
  | _, _, _ => ("", [])

/-! ## `src/pc_app/main.py` — class `SolderingStationGUI` (profile data flow) -/

/-- Clamp an int to a spin-box range (`QSpinBox.setRange` + `setValue`). -/
def clampI (lo hi v : Int) : Int := max lo (min hi v)

/-- Clamp a rational to a double-spin-box range. -/
def clampQ (lo hi v : ℚ) : ℚ := max lo (min hi v)

/-- Require a Python `str` (a non-string raises `TypeError`, e.g. when handed
to `QLineEdit`). -/
def asStr : PyVal → Except Unit String
  | .str s => .ok s
  | _ => .error ()

/-- Require a Python `int` (`QSpinBox.setValue` raises on anything else). -/
def asInt : PyVal → Except Unit Int
  | .int n => .ok n
  | _ => .error ()

/-- Require a Python number (`QDoubleSpinBox.setValue` accepts int or
float). -/
def asNum : PyVal → Except Unit ℚ
  | .int n => .ok (n : ℚ)
  | .float q => .ok q
  | _ => .error ()

/-- Require a Python `bool` (`QCheckBox.setChecked`). -/
def asBool : PyVal → Except Unit Bool
  | .bool b => .ok b
  | _ => .error ()

/-- Require a Python list (iterating anything else raises). -/
def asList : PyVal → Except Unit (List PyVal)
  | .list xs => .ok xs
  | _ => .error ()

/-- The values held by one phase widget group (`add_phase_widget`,
`src/pc_app/main.py` lines 456–524): name line-edit, target and duration
spin boxes, Kp/Ki double-spin boxes, three heater check boxes. -/
structure PhaseWidget where
  name : String
  target : Int
  duration : Int
  kp : ℚ
  ki : ℚ
  use_top : Bool
  use_bottom : Bool
  use_ir : Bool
deriving DecidableEq

/-- The data part of `add_phase_widget(phase_data)` (lines 456–524): the
widget values extracted from a phase dict.  The source indexes with
`phase_data["name"]`, `["target"]`, `["duration"]`, `["kp"]`, `["ki"]`,
`["use_top"]`, `["use_bottom"]`, `["use_ir"]` — raising `KeyError` on a
missing key — and each spin box clamps to its configured range. -/
def add_phase_widget_data (pd : PyVal) : Except Unit PhaseWidget := do
  let nm ← asStr (← pd.index "name")
  let tv ← asInt (← pd.index "target")
  let dv ← asInt (← pd.index "duration")
  let kpv ← asNum (← pd.index "kp")
  let kiv ← asNum (← pd.index "ki")
  let ut ← asBool (← pd.index "use_top")
  let ub ← asBool (← pd.index "use_bottom")
  let ui ← asBool (← pd.index "use_ir")
  pure ⟨nm, clampI 50 400 tv, clampI 1 3600 dv,
        clampQ (1/10) 10 kpv, clampQ (1/1000) 1 kiv, ut, ub, ui⟩

/-- The GUI state that the session-level operations read and write: the
connection manager, the profile editor widgets (name line-edit, limit spin
box with range 100–400, the phase widget list) and the control-tab log
text. -/
structure GuiState where
  cm : ConnectionManager
  profile_name : String
  temp_limit : Int
  phases : List PhaseWidget
  messages : List String
deriving DecidableEq

/-- Outcome of one GUI command operation: the early `not connected` return,
a success path, or the failure message box. -/
inductive OpOutcome where
  | notConnected
  | success
  | failure
deriving DecidableEq

/-- The wire dict `save_profile` builds for one phase (lines 639–648): keys
`name, targetC, seconds, Kp, Ki, useTop, useBottom, useIR`. -/
def phaseWireDict (p : PhaseWidget) : PyVal :=
  .dict [("name", .str p.name), ("targetC", .int p.target),
         ("seconds", .int p.duration), ("Kp", .float p.kp), ("Ki", .float p.ki),
         ("useTop", .bool p.use_top), ("useBottom", .bool p.use_bottom),
         ("useIR", .bool p.use_ir)]

/-- The full wire dict `save_profile` submits (lines 630–649): profile name,
`overLimitC`, phase count `n`, and the phase list. -/
def profileWireDict (st : GuiState) : PyVal :=
  .dict [("name", .str st.profile_name), ("overLimitC", .int st.temp_limit),
         ("n", .int st.phases.length), ("phases", .list (st.phases.map phaseWireDict))]

/-- Truthiness of a `send_command` result (`if result:` on an
`Option PyVal`). -/
def optTruthy : Option PyVal → Bool
  | Option.none => false
  | some v => v.truthy

/-- `SolderingStationGUI.save_profile` (lines 623–656): bail out with a
warning when disconnected; otherwise POST the wire dict to `preset` and
report success iff the result is truthy.  The GUI state is never modified. -/
def save_profile (st : GuiState) (tb : TransportBehavior) :
    GuiState × OpOutcome × List IOEvent :=
  if st.cm.connected = false then (st, .notConnected, [])
  else
    let r := st.cm.send_command "preset" (some (profileWireDict st)) "POST" tb
    (st, if optTruthy r.1 then .success else .failure, r.2)

/-- The `for phase_data in profile_data.get('phases', []):` loop of
`load_profile`: build the phase widgets left to right, propagating the first
exception `add_phase_widget` raises. -/
def loadPhases : List PyVal → Except Unit (List PhaseWidget)
  | [] => .ok []
  | pd :: r => do
      let w ← add_phase_widget_data pd
      let ws ← loadPhases r
      pure (w :: ws)

/-- `SolderingStationGUI.load_profile` (lines 658–682): bail out with a
warning when disconnected; issue `GET preset`; on a falsy result show the
failure warning and change nothing; on a truthy result set the name to
`.get('name', '')`, the limit spin box to `.get('overLimitC', 280)` (clamped
to its 100–400 range), clear the phase widgets and rebuild them from
`.get('phases', [])` via `add_phase_widget` — whose `KeyError`s propagate
out of the handler (modelled as the `.error` case). -/
def load_profile (st : GuiState) (tb : TransportBehavior) :
    Except Unit (GuiState × OpOutcome) × List IOEvent :=
  if st.cm.connected = false then (.ok (st, .notConnected), [])
  else
    let r := st.cm.send_command "preset" Option.none "GET" tb
    match r.1 with
    | some pd =>
        if pd.truthy then
          (do
            let nm ← asStr (← pd.getd "name" (.str ""))
            let li ← asInt (← pd.getd "overLimitC" (.int 280))
            let phl ← asList (← pd.getd "phases" (.list []))
            let ws ← loadPhases phl
            pure ({ st with profile_name := nm, temp_limit := clampI 100 400 li,
                            phases := ws }, OpOutcome.success), r.2)
        else (.ok (st, .failure), r.2)
    | Option.none => (.ok (st, .failure), r.2)

/-- `SolderingStationGUI.start_process` (lines 684–694): bail out with a
warning when disconnected; otherwise POST `start` and, on a truthy result,
append the log message. -/
def start_process (st : GuiState) (tb : TransportBehavior) :
    GuiState × OpOutcome × List IOEvent :=
  if st.cm.connected = false then (st, .notConnected, [])
  else
    let r := st.cm.send_command "start" Option.none "POST" tb
    if optTruthy r.1 then
      ({ st with messages := st.messages ++ ["Процесс пайки запущен"] }, .success, r.2)
    else (st, .failure, r.2)

/-- `SolderingStationGUI.stop_process` (lines 696–703): silently return when
disconnected; otherwise POST `stop` and, on a truthy result, append the log
message. -/
def stop_process (st : GuiState) (tb : TransportBehavior) :
    GuiState × OpOutcome × List IOEvent :=
  if st.cm.connected = false then (st, .notConnected, [])
  else
    let r := st.cm.send_command "stop" Option.none "POST" tb
    if optTruthy r.1 then
      ({ st with messages := st.messages ++ ["Процесс пайки остановлен"] }, .success, r.2)
    else (st, .failure, r.2)

/-- `SolderingStationGUI.toggle_fan` (lines 705–712): silently return when
disconnected; otherwise POST `fan` and, on a truthy result, append the log
message. -/
def toggle_fan (st : GuiState) (tb : TransportBehavior) :
    GuiState × OpOutcome × List IOEvent :=
  if st.cm.connected = false then (st, .notConnected, [])
  else
    let r := st.cm.send_command "fan" Option.none "POST" tb
    if optTruthy r.1 then
      ({ st with messages := st.messages ++ ["Вентилятор: " ++ pyStr ((r.1).getD .none)] },
       .success, r.2)
    else (st, .failure, r.2)

/-! ## `src/pc_app/main.py` — class `DataLogger` -/

/-- A `datetime` value (the attributes the client formats). -/
structure Timestamp where
  year : Nat
  month : Nat
  day : Nat
  hour : Nat
  minute : Nat
  second : Nat
deriving DecidableEq

/-- One element of `DataLogger.log_data` (lines 113–116): the capture time
and the raw status value. -/
structure LogEntry where
  timestamp : Timestamp
  data : PyVal

/-- State of `DataLogger` (lines 94–121): the `running` flag and the
append-only `log_data` list. -/
structure DataLogger where
  running : Bool
  log_data : List LogEntry

/-- Where, inside one loop iteration, a concurrent `stop()` call flips
`running` to `False`: just before the top-of-loop `while self.running`
check, while the `send_command('status')` request is in flight (i.e. after
the check and before the result is inspected), or during the
`time.sleep(0.3)`. -/
inductive StopPoint where
  | beforeCheck
  | duringPoll
  | duringSleep
deriving DecidableEq

/-- The environment of one poller iteration: an optional concurrent `stop()`
and the shared connection manager plus transport behaviour the iteration's
`send_command('status')` sees, plus the `datetime.now()` value. -/
structure Tick where
  stopAt : Option StopPoint
  cm : ConnectionManager
  tb : TransportBehavior
  ts : Timestamp

/-- The fixed poll interval, in milliseconds, of the `time.sleep(0.3)` at
the end of every `DataLogger.run` iteration (line 117). -/
def DataLogger.sleepMs : Nat := 300

/-- The body of one `DataLogger.run` iteration (lines 108–117), i.e. the
code after the `while self.running` check: if the manager is connected, poll
`status`; if the result is truthy, emit it to subscribers and append it to
the log — note the source re-checks nothing after the poll, so a `stop()`
that lands while the request is in flight does not suppress the emit; then
sleep 300 ms.  Returns the new state and the list of samples emitted. -/
def DataLogger.body (dl : DataLogger) (tk : Tick) : DataLogger × List PyVal :=
  let p :=
    if tk.cm.connected then
      let status := (tk.cm.send_command "status" Option.none "GET" tk.tb).1
      let dl' := if tk.stopAt = some .duringPoll then { dl with running := false } else dl
      match status with
      | some v =>
          if v.truthy then
            ({ dl' with log_data := dl'.log_data ++ [⟨tk.ts, v⟩] }, [v])
          else (dl', [])
      | Option.none => (dl', [])
    else
      (if tk.stopAt = some .duringPoll then { dl with running := false } else dl, [])
  (if tk.stopAt = some .duringSleep then { p.1 with running := false } else p.1, p.2)

/-- `DataLogger.run` (lines 105–117) over an explicit schedule of iteration
environments: apply a `beforeCheck` stop, test `running`, and if still
running execute the iteration body and continue.  Returns the final state
and every sample emitted, in emission order. -/
def DataLogger.runLoop (dl : DataLogger) : List Tick → DataLogger × List PyVal
  | [] => (dl, [])
  | tk :: rest =>
      let dl0 := if tk.stopAt = some .beforeCheck then { dl with running := false } else dl
      if dl0.running = false then (dl0, [])
      else
        let s := DataLogger.body dl0 tk
        let r := DataLogger.runLoop s.1 rest
        (r.1, s.2 ++ r.2)

/-! ## `src/pc_app/main.py` — `SolderingStationGUI.export_log` (lines 729–747) -/

/-- Zero-padding to two characters (`strftime` `%m %d %H %M %S`). -/
def pad2 (n : Nat) : String := if n < 10 then "0" ++ natStr n else natStr n

/-- Zero-padding to four characters (`strftime` `%Y`). -/
def pad4 (n : Nat) : String :=
  if n < 10 then "000" ++ natStr n
  else if n < 100 then "00" ++ natStr n
  else if n < 1000 then "0" ++ natStr n
  else natStr n

/-- `timestamp.strftime('%Y-%m-%d %H:%M:%S')`. -/
def Timestamp.format (t : Timestamp) : String :=
  pad4 t.year ++ "-" ++ pad2 t.month ++ "-" ++ pad2 t.day ++ " " ++
  pad2 t.hour ++ ":" ++ pad2 t.minute ++ ":" ++ pad2 t.second

/-- Python round-half-up of `10 * q` to an integer, the idealisation of the
binary-float rounding behind `format(x, '.1f')` (tenths digit selection). -/
def roundTenths (q : ℚ) : Int :=
  Int.fdiv (2 * (10 * q).num + ((10 * q).den : Int)) (2 * ((10 * q).den : Int))

/-- Python format(x, '.1f') on a number: an int renders as its digits followed by
`".0"`; a float renders rounded to one digit after the decimal point. -/
def fmt1T : PyVal → String
  | .int n => intStr n ++ ".0"
  | .float q =>
      let n := roundTenths q
      (if n < 0 then "-" else "") ++ natStr (n.natAbs / 10) ++ "." ++ natStr (n.natAbs % 10)
  | _ => ""

/-- Python format(x, '.1f') with the `TypeError`/`ValueError` a non-numeric
value raises. -/
def fmt1 : PyVal → Except Unit String
  | .int n => .ok (fmt1T (.int n))
  | .float q => .ok (fmt1T (.float q))
  | _ => .error ()

/-- The dict entries of a log entry's data (empty when the data is not a
dict; the well-formedness predicate below rules that case out). -/
def LogEntry.kvs (e : LogEntry) : List (String × PyVal) :=
  match e.data with
  | .dict kvs => kvs
  | _ => []

/-- The rendered temperature column of an entry: `data.get(k, 0)` formatted
with '.1f'. -/
def tempField (e : LogEntry) (k : String) : String :=
  fmt1T ((pyLookup e.kvs k).getD (.int 0))

/-- The rendered phase column of an entry: `data.get('phase', '-')`. -/
def phaseField (e : LogEntry) : String :=
  pyStr ((pyLookup e.kvs "phase").getD (.str "-"))

/-- The rendered remaining-seconds column of an entry:
`data.get('remain', 0)`. -/
def remainField (e : LogEntry) : String :=
  pyStr ((pyLookup e.kvs "remain").getD (.int 0))

/-- One CSV row of the export (line 743), without its terminating newline. -/
def rowStr (e : LogEntry) : String :=
  e.timestamp.format ++ "," ++ tempField e "top" ++ "," ++ tempField e "bottom" ++ "," ++
  tempField e "ir" ++ "," ++ tempField e "external" ++ "," ++ phaseField e ++ "," ++
  remainField e

/-- One CSV row as the code computes it, with the exceptions the f-string
raises on malformed entries: `.get` on non-dict data and `:.1f` on a
non-numeric temperature. -/
def exportRow (e : LogEntry) : Except Unit String := do
  let t ← fmt1 (← e.data.getd "top" (.int 0))
  let b ← fmt1 (← e.data.getd "bottom" (.int 0))
  let i ← fmt1 (← e.data.getd "ir" (.int 0))
  let x ← fmt1 (← e.data.getd "external" (.int 0))
  let ph ← e.data.getd "phase" (.str "-")
  let rm ← e.data.getd "remain" (.int 0)
  pure (e.timestamp.format ++ "," ++ t ++ "," ++ b ++ "," ++ i ++ "," ++ x ++ "," ++
        pyStr ph ++ "," ++ pyStr rm)

/-- The header line written first (line 740), without its newline. -/
def csvHeader : String := "Время,Верхний фен,Нижний фен,IR-стол,Внешняя ТС,Фаза,Осталось"

/-- The newline-terminated rows written by the `for entry in log_data`
loop (lines 741–743), in log order. -/
def exportRows : List LogEntry → Except Unit String
  | [] => .ok ""
  | e :: r => do
      let row ← exportRow e
      let rest ← exportRows r
      pure (row ++ "\n" ++ rest)

/-- The full file contents a successful export writes: the header line then
one row per entry. -/
def exportContents (log : List LogEntry) : Except Unit String := do
  let rows ← exportRows log
  pure (csvHeader ++ "\n" ++ rows)

/-- `SolderingStationGUI.export_log` (lines 729–747): with an empty log show
the info box and return without writing (`Option.none`); otherwise write the
header and the rows.  The logger state is returned unchanged — the source
only reads `log_data`. -/
def export_log (dl : DataLogger) : Option (Except Unit String) × DataLogger :=
  match dl.log_data with
  | [] => (Option.none, dl)
  | _ => (some (exportContents dl.log_data), dl)

/-- Count of newline characters in a string (the number of lines written,
since every `f.write` in `export_log` emits newline-terminated text). -/
def countNL (s : String) : Nat := s.data.count '\n'

/-- A string has exactly one decimal place: it ends in a dot followed by a
single digit character. -/
def OneDecimal (s : String) : Prop :=
  ∃ p d, d < 10 ∧ s = p ++ "." ++ (⟨[Nat.digitChar d]⟩ : String)

/-- Numeric-or-absent check for one temperature column of a log entry. -/
def valNumOk : Option PyVal → Bool
  | Option.none => true
  | some (.int _) => true
  | some (.float _) => true
  | some _ => false

/-- Phase column check: absent, or a string with no embedded newline. -/
def phaseOk : Option PyVal → Bool
  | Option.none => true
  | some (.str p) => p.data.count '\n' == 0
  | some _ => false

/-- Remaining-seconds column check: absent, or an int. -/
def remainOk : Option PyVal → Bool
  | Option.none => true
  | some (.int _) => true
  | some _ => false

/-- Well-formedness of a `datetime`: the field ranges `datetime.now()`
guarantees (wide enough for the padding lemmas). -/
def Timestamp.wf (t : Timestamp) : Bool :=
  (1000 ≤ t.year) && (t.year < 10000) && (t.month < 100) && (t.day < 100) &&
  (t.hour < 100) && (t.minute < 100) && (t.second < 100)

/-- Well-formedness of one log entry: dict-shaped data, numeric-or-absent
temperatures, a newline-free string-or-absent phase, an int-or-absent
remaining time, and a sane timestamp.  These are exactly the shapes a
successful WiFi `status` poll stores. -/
def entryWf (e : LogEntry) : Bool :=
  (match e.data with | .dict _ => true | _ => false) &&
  valNumOk (pyLookup e.kvs "top") && valNumOk (pyLookup e.kvs "bottom") &&
  valNumOk (pyLookup e.kvs "ir") && valNumOk (pyLookup e.kvs "external") &&
  phaseOk (pyLookup e.kvs "phase") && remainOk (pyLookup e.kvs "remain") &&
  e.timestamp.wf

/-- The concatenation of the newline-terminated export rows of a log, in log
order (the reference shape a successful `exportRows` run produces). -/
def rowsConcat : List LogEntry → String
  | [] => ""
  | e :: r => rowStr e ++ "\n" ++ rowsConcat r

end Station

namespace Station

/-! ## Theorems for claim C3 -/

theorem pySplit_empty : pySplit "" ',' = [""] := rfl

theorem pySplit_ne_empty_of_three {data : String} {a b c : String}
    (h : pySplit data ',' = [a, b, c]) : data ≠ "" := by
  intro hd
  subst hd
  simp [pySplit_empty] at h

/-- C3: for every `GET_TEMP` response line, if splitting on commas yields
exactly three fields the stored top, bottom and preheat temperatures become
those three fields in order; for any other field count (including the empty
response) all three stored temperatures retain their prior values. -/
theorem c3_get_temp_three_fields (t : Temperature) (data : String) :
    (∀ a b c, pySplit data ',' = [a, b, c] →
      t.update_temperatures data =
        { top_temp := .str a, bottom_temp := .str b, preheat_temp := .str c }) ∧
    ((pySplit data ',').length ≠ 3 → t.update_temperatures data = t) := by
  constructor
  · intro a b c h
    have hne : data ≠ "" := pySplit_ne_empty_of_three h
    unfold Temperature.update_temperatures
    rw [if_neg hne, h]
  · intro h
    unfold Temperature.update_temperatures
    by_cases hd : data = ""
    · rw [if_pos hd]
    · rw [if_neg hd]
      rcases hl : pySplit data ',' with _ | ⟨a, l⟩
      · rfl
      · rcases l with _ | ⟨b, l⟩
        · rfl
        · rcases l with _ | ⟨c, l⟩
          · rfl
          · rcases l with _ | ⟨d, l⟩
            · exact absurd (by rw [hl]; rfl) h
            · rfl

theorem c3_get_temp_three_fields_witness :
    Temperature.update_temperatures Temperature.init "215,208,190" =
      { top_temp := .str "215", bottom_temp := .str "208", preheat_temp := .str "190" } ∧
    Temperature.update_temperatures Temperature.init "215,208" = Temperature.init := by
  refine ⟨(c3_get_temp_three_fields Temperature.init "215,208,190").1 "215" "208" "190" rfl, ?_⟩
  exact (c3_get_temp_three_fields Temperature.init "215,208").2 (by decide)

/-! ## Theorems for claim C8 -/

/-- C8 counterexample: after the `Line Transport` response `"215,208,190"`,
the stored top temperature is the *string* `"215"`, not the number `215.0`
(nor the int `215`) — the source assigns the split fields without parsing. -/
theorem c8_counterexample_stores_strings :
    (Temperature.update_temperatures Temperature.init "215,208,190").top_temp
        = PyVal.str "215" ∧
    (Temperature.update_temperatures Temperature.init "215,208,190").top_temp
        ≠ PyVal.float 215 ∧
    (Temperature.update_temperatures Temperature.init "215,208,190").top_temp
        ≠ PyVal.int 215 ∧
    (Temperature.update_temperatures Temperature.init "215,208,190").bottom_temp
        ≠ PyVal.float 208 := by
  refine ⟨rfl, ?_, ?_, ?_⟩
  · show PyVal.str "215" ≠ PyVal.float 215
    exact fun h => nomatch h
  · show PyVal.str "215" ≠ PyVal.int 215
    exact fun h => nomatch h
  · show PyVal.str "208" ≠ PyVal.float 208
    exact fun h => nomatch h

/-- C8 amended: given the response `"215,208,190"`, the stored top and bottom
temperatures are the raw string fields `"215"` and `"208"` (numerically the
values 215 and 208, but held as unparsed strings; the third field `"190"` is
stored as the preheat slot, and there are no `ir`/`external` slots at all in
the serial-path `Temperature` class). -/
theorem c8_amended_raw_string_fields :
    Temperature.update_temperatures Temperature.init "215,208,190" =
      { top_temp := .str "215", bottom_temp := .str "208", preheat_temp := .str "190" } := rfl

/-! ## Theorems for claim C1 -/

/-- C1: while disconnected, every session command operation fails fast —
`send_command` (hence `getStatus`) returns `None`, each GUI command
(`start`, `stop`, `toggleFan`, `saveProfile`, `loadProfile`) takes its
early-return path — with an empty transport trace (nothing sent over serial
or HTTP) and the state unchanged; likewise the `app_py` `Connection` with no
connection type performs no I/O in `send` and returns `""` from `receive`. -/
theorem c1_disconnected_fail_fast (st : GuiState) (tb : TransportBehavior)
    (h : st.cm.connected = false) :
    (∀ endpoint data method,
        st.cm.send_command endpoint data method tb = (Option.none, [])) ∧
    start_process st tb = (st, .notConnected, []) ∧
    stop_process st tb = (st, .notConnected, []) ∧
    toggle_fan st tb = (st, .notConnected, []) ∧
    save_profile st tb = (st, .notConnected, []) ∧
    load_profile st tb = (.ok (st, .notConnected), []) ∧
    (∀ c : Connection, c.connection_type = Option.none →
        (∀ msg, c.send msg = []) ∧ (∀ line, c.receive line = ("", []))) := by
  refine ⟨?_, ?_, ?_, ?_, ?_, ?_, ?_⟩
  · intro endpoint data method
    simp [ConnectionManager.send_command, ConnectionManager.send_command_exc, h]
  · simp [start_process, h]
  · simp [stop_process, h]
  · simp [toggle_fan, h]
  · simp [save_profile, h]
  · simp [load_profile, h]
  · intro c hc
    exact ⟨fun msg => by simp [Connection.send, hc],
           fun line => by simp [Connection.receive, hc]⟩

theorem c1_disconnected_fail_fast_witness :
    start_process ⟨ConnectionManager.init, "Lead-Free BGA", 280, [], []⟩
        ⟨.raise, .writeRaise⟩ =
      (⟨ConnectionManager.init, "Lead-Free BGA", 280, [], []⟩, .notConnected, []) ∧
    (ConnectionManager.init.send_command "status" Option.none "GET" ⟨.raise, .writeRaise⟩) =
      (Option.none, []) := by
  have h := c1_disconnected_fail_fast
      ⟨ConnectionManager.init, "Lead-Free BGA", 280, [], []⟩ ⟨.raise, .writeRaise⟩ rfl
  exact ⟨h.2.1, h.1 "status" Option.none "GET"⟩

/-! ## Theorems for claim C10 -/

/-- C10: `ConnectionManager.send_command` is total at its interface — every
exception the `try` body can raise (timeout, refused connection, decode
failure, a `None` serial handle) is caught and surfaced as the return value
`None`, and every normal outcome of the body is returned unchanged. -/
theorem c10_send_command_total (cm : ConnectionManager) (endpoint : String)
    (data : Option PyVal) (method : String) (tb : TransportBehavior) :
    (∀ e', (cm.send_command_exc endpoint data method tb).1 = .error e' →
        (cm.send_command endpoint data method tb).1 = Option.none) ∧
    (∀ r, (cm.send_command_exc endpoint data method tb).1 = .ok r →
        (cm.send_command endpoint data method tb).1 = r) := by
  unfold ConnectionManager.send_command
  rcases hx : cm.send_command_exc endpoint data method tb with ⟨res, tr⟩
  constructor
  · intro e' hres
    simp only [hx] at hres ⊢
    cases res with
    | ok v => exact absurd hres (by simp)
    | error e => rfl
  · intro r hres
    simp only [hx] at hres ⊢
    cases res with
    | ok v => simp at hres; simp [hres]
    | error e => exact absurd hres (by simp)

theorem c10_send_command_total_witness :
    ((ConnectionManager.mk (some .wifi) Option.none (some "192.168.4.1") true).send_command
        "status" Option.none "GET" ⟨.raise, .writeRaise⟩).1 = Option.none :=
  (c10_send_command_total _ "status" Option.none "GET" _).1 () rfl

/-! ## Theorems for claim C9 -/

/-- C9 counterexample: `Connection.connect_wifi` (`src/app_py/connection.py`)
on a fresh connection, when socket creation succeeds but the TCP connect
fails, reports `False` to the caller yet *retains* the created socket object
in `wifi_conn` — the state does not stay unchanged as the claim requires. -/
theorem c9_counterexample_socket_retained :
    Connection.connect_wifi Connection.init "192.168.4.1" .connectRaise =
      (⟨Option.none, Option.none, some SocketState.fresh⟩, false) ∧
    (⟨Option.none, Option.none, some SocketState.fresh⟩ : Connection) ≠ Connection.init :=
  ⟨rfl, by decide⟩

/-- C9 amended: every failed connect reports `False` to the caller; for the
`pc_app` `ConnectionManager` (serial exception, WiFi exception, WiFi
non-200 probe) and for `app_py` serial and socket-creation failures the
state is left fully unchanged, but when `app_py`'s `connect_wifi` fails at
the TCP connect step the socket object created just before stays stored in
`wifi_conn`. -/
theorem c9_amended_connect_failure (cm : ConnectionManager) (c : Connection)
    (port ip : String) (n : Nat) (hn : n ≠ 200) :
    cm.connect_serial port .raise = (cm, false) ∧
    cm.connect_wifi ip .raise = (cm, false) ∧
    (∀ body, cm.connect_wifi ip (.response n body) = (cm, false)) ∧
    c.connect_serial port .raise = (c, false) ∧
    c.connect_wifi ip .socketRaise = (c, false) ∧
    c.connect_wifi ip .connectRaise = ({ c with wifi_conn := some SocketState.fresh }, false) := by
  refine ⟨rfl, rfl, ?_, rfl, rfl, rfl⟩
  intro body
  simp [ConnectionManager.connect_wifi, hn]

theorem c9_amended_connect_failure_witness :
    ConnectionManager.init.connect_serial "COM3" .raise = (ConnectionManager.init, false) ∧
    ConnectionManager.init.connect_wifi "192.168.4.1" (.response 404 (.ok .none)) =
      (ConnectionManager.init, false) := by
  have h := c9_amended_connect_failure ConnectionManager.init Connection.init
      "COM3" "192.168.4.1" 404 (by decide)
  exact ⟨h.1, h.2.2.1 (.ok .none)⟩

/-! ## Theorems for claim C5 -/

theorem runLoop_cons (dl : DataLogger) (tk : Tick) (rest : List Tick) :
    DataLogger.runLoop dl (tk :: rest) =
      if (if tk.stopAt = some .beforeCheck then
            { dl with running := false } else dl).running = false then
        (if tk.stopAt = some .beforeCheck then { dl with running := false } else dl, [])
      else
        ((DataLogger.runLoop (DataLogger.body
            (if tk.stopAt = some .beforeCheck then { dl with running := false } else dl)
            tk).1 rest).1,
         (DataLogger.body
            (if tk.stopAt = some .beforeCheck then { dl with running := false } else dl)
            tk).2 ++
         (DataLogger.runLoop (DataLogger.body
            (if tk.stopAt = some .beforeCheck then { dl with running := false } else dl)
            tk).1 rest).2) := rfl

theorem runLoop_of_stopped (dl : DataLogger) (h : dl.running = false) :
    ∀ ticks, DataLogger.runLoop dl ticks = (dl, []) := by
  intro ticks
  cases ticks with
  | nil => rfl
  | cons tk rest =>
      unfold DataLogger.runLoop
      rcases dl with ⟨r, log⟩
      simp at h
      subst h
      simp

/-- C5: in an iteration where the status poll fails (returns `None`) and no
`stop()` lands, the poller publishes nothing, appends nothing, keeps
`running` unchanged and the loop continues exactly as if the tick had not
happened; more generally, without a `stop()` the body never changes
`running`, so the poller never terminates itself on transport failure. -/
theorem c5_failed_poll_continues (dl : DataLogger) (tk : Tick) (rest : List Tick)
    (hrun : dl.running = true) (hstop : tk.stopAt = Option.none)
    (hfail : (tk.cm.send_command "status" Option.none "GET" tk.tb).1 = Option.none) :
    DataLogger.body dl tk = (dl, []) ∧
    DataLogger.runLoop dl (tk :: rest) = DataLogger.runLoop dl rest ∧
    (∀ tk' : Tick, tk'.stopAt = Option.none →
        ((DataLogger.body dl tk').1).running = dl.running) ∧
    DataLogger.sleepMs = 300 := by
  have hbody : DataLogger.body dl tk = (dl, []) := by
    unfold DataLogger.body
    by_cases hc : tk.cm.connected
    · simp [hc, hstop, hfail]
    · simp [hc, hstop]
  refine ⟨hbody, ?_, ?_, rfl⟩
  · rw [runLoop_cons]
    simp [hstop, hrun, hbody]
  · intro tk' hstop'
    unfold DataLogger.body
    by_cases hc : tk'.cm.connected
    · rcases hs : (tk'.cm.send_command "status" Option.none "GET" tk'.tb).1 with _ | v
      · simp [hc, hstop', hs]
      · by_cases ht : v.truthy <;> simp [hc, hstop', hs, ht]
    · simp [hc, hstop']

theorem c5_failed_poll_continues_witness :
    DataLogger.body ⟨true, []⟩
        ⟨Option.none, ⟨some .wifi, Option.none, some "192.168.4.1", true⟩,
         ⟨.raise, .writeRaise⟩, ⟨2026, 10, 12, 0, 0, 0⟩⟩ = (⟨true, []⟩, []) ∧
    DataLogger.runLoop ⟨true, []⟩
        [⟨Option.none, ⟨some .wifi, Option.none, some "192.168.4.1", true⟩,
          ⟨.raise, .writeRaise⟩, ⟨2026, 10, 12, 0, 0, 0⟩⟩] =
      DataLogger.runLoop ⟨true, []⟩ [] := by
  have h := c5_failed_poll_continues ⟨true, []⟩
      ⟨Option.none, ⟨some .wifi, Option.none, some "192.168.4.1", true⟩,
       ⟨.raise, .writeRaise⟩, ⟨2026, 10, 12, 0, 0, 0⟩⟩ [] rfl rfl rfl
  exact ⟨h.1, h.2.1⟩

/-! ## Theorems for claim C6 -/

/-- C6 counterexample: a `stop()` that lands while the status request is in
flight does *not* cause the result to be discarded — with `running` already
`False` when the poll returns, the sample is still published to subscribers
and appended to the log, contradicting the claim that no further samples are
published after `stop()` returns. -/
theorem c6_counterexample_inflight_published :
    DataLogger.runLoop ⟨true, []⟩
        [⟨some .duringPoll, ⟨some .wifi, Option.none, some "192.168.4.1", true⟩,
          ⟨.response 200 (.ok (.dict [("top", .int 215)])), .writeRaise⟩,
          ⟨2026, 10, 12, 0, 0, 0⟩⟩] =
      (⟨false, [⟨⟨2026, 10, 12, 0, 0, 0⟩, .dict [("top", .int 215)]⟩]⟩,
       [.dict [("top", .int 215)]]) ∧
    [PyVal.dict [("top", .int 215)]] ≠ [] :=
  ⟨rfl, by simp⟩

theorem body_running_false_of_stop (dl : DataLogger) (tk : Tick)
    (h : tk.stopAt = some .duringPoll ∨ tk.stopAt = some .duringSleep) :
    ((DataLogger.body dl tk).1).running = false := by
  unfold DataLogger.body
  rcases h with h | h
  · by_cases hc : tk.cm.connected
    · rcases hs : (tk.cm.send_command "status" Option.none "GET" tk.tb).1 with _ | v
      · simp [hc, h, hs]
      · by_cases ht : v.truthy <;> simp [hc, h, hs, ht]
    · simp [hc, h]
  · simp [h]

theorem body_emits_le_one (dl : DataLogger) (tk : Tick) :
    (DataLogger.body dl tk).2.length ≤ 1 := by
  unfold DataLogger.body
  by_cases hc : tk.cm.connected
  · rcases hs : (tk.cm.send_command "status" Option.none "GET" tk.tb).1 with _ | v
    · simp [hc, hs]
    · by_cases ht : v.truthy <;> simp [hc, hs, ht]
  · simp [hc]

/-- C6 amended: a `stop()` landing anywhere in an iteration makes the loop
exit at its next top-of-loop check — the rest of the schedule contributes
nothing — but the iteration in progress still runs to completion, so at most
one further sample (the in-flight request's result, which the source
publishes and appends rather than discarding) is emitted after `stop()`
returns. -/
theorem c6_amended_at_most_one_sample (dl : DataLogger) (tk : Tick) (rest : List Tick)
    (hstop : tk.stopAt ≠ Option.none) :
    DataLogger.runLoop dl (tk :: rest) = DataLogger.runLoop dl [tk] ∧
    (DataLogger.runLoop dl (tk :: rest)).2.length ≤ 1 := by
  rcases hs : tk.stopAt with _ | sp
  · exact absurd hs hstop
  have key : DataLogger.runLoop dl (tk :: rest) = DataLogger.runLoop dl [tk] := by
    cases sp with
    | beforeCheck =>
        unfold DataLogger.runLoop
        simp [hs]
    | duringPoll =>
        by_cases hr : dl.running
        · unfold DataLogger.runLoop
          have hb : ((DataLogger.body dl tk).1).running = false :=
            body_running_false_of_stop dl tk (Or.inl hs)
          simp [hs, hr, runLoop_of_stopped _ hb]
        · unfold DataLogger.runLoop
          simp at hr
          simp [hs, hr]
    | duringSleep =>
        by_cases hr : dl.running
        · unfold DataLogger.runLoop
          have hb : ((DataLogger.body dl tk).1).running = false :=
            body_running_false_of_stop dl tk (Or.inr hs)
          simp [hs, hr, runLoop_of_stopped _ hb]
        · unfold DataLogger.runLoop
          simp at hr
          simp [hs, hr]
  refine ⟨key, ?_⟩
  rw [key]
  unfold DataLogger.runLoop
  by_cases hbc : tk.stopAt = some .beforeCheck
  · simp [hbc]
  · by_cases hr : (if tk.stopAt = some StopPoint.beforeCheck then
        { dl with running := false } else dl).running = false
    · simp [hr]
    · simp only [hr, if_false]
      simp only [Bool.not_eq_false] at hr
      unfold DataLogger.runLoop
      simpa using body_emits_le_one _ tk

theorem c6_amended_at_most_one_sample_witness :
    DataLogger.runLoop ⟨true, []⟩
        [⟨some .duringSleep, ConnectionManager.init, ⟨.raise, .writeRaise⟩,
          ⟨2026, 10, 12, 0, 0, 0⟩⟩,
         ⟨Option.none, ConnectionManager.init, ⟨.raise, .writeRaise⟩,
          ⟨2026, 10, 12, 0, 0, 1⟩⟩] =
      DataLogger.runLoop ⟨true, []⟩
        [⟨some .duringSleep, ConnectionManager.init, ⟨.raise, .writeRaise⟩,
          ⟨2026, 10, 12, 0, 0, 0⟩⟩] := by
  have h := c6_amended_at_most_one_sample ⟨true, []⟩
      ⟨some .duringSleep, ConnectionManager.init, ⟨.raise, .writeRaise⟩,
       ⟨2026, 10, 12, 0, 0, 0⟩⟩
      [⟨Option.none, ConnectionManager.init, ⟨.raise, .writeRaise⟩,
        ⟨2026, 10, 12, 0, 0, 1⟩⟩] (by simp)
  exact h.1

/-! ## Theorems for claim C2 -/

/-- C2 counterexample: a loaded `preset` payload missing `overLimitC` is not
rejected — `load_profile` silently defaults the over-temperature limit to
280 and reports success. -/
theorem c2_counterexample_default_280 :
    pyLookup [("name", PyVal.str "X"), ("phases", PyVal.list [])] "overLimitC" =
      Option.none ∧
    load_profile ⟨⟨some .wifi, Option.none, some "192.168.4.1", true⟩, "Old", 300, [], []⟩
        ⟨.response 200 (.ok (.dict [("name", .str "X"), ("phases", .list [])])),
         .writeRaise⟩ =
      (.ok (⟨⟨some .wifi, Option.none, some "192.168.4.1", true⟩, "X", 280, [], []⟩,
            .success),
       [.httpGet "http://192.168.4.1/preset"]) :=
  ⟨rfl, rfl⟩

/-- C2 amended: for a truthy loaded payload, missing top-level fields are
silently defaulted — `name` to `""`, `overLimitC` to 280, `phases` to `[]` —
and the load reports success; no `InvalidProfile`-style rejection exists in
the source. -/
theorem c2_amended_silent_defaults (st : GuiState) (tb : TransportBehavior)
    (kvs : List (String × PyVal))
    (hconn : st.cm.connected = true)
    (hresp : (st.cm.send_command "preset" Option.none "GET" tb).1 = some (.dict kvs))
    (hne : kvs ≠ [])
    (hname : pyLookup kvs "name" = Option.none)
    (hlimit : pyLookup kvs "overLimitC" = Option.none)
    (hph : pyLookup kvs "phases" = Option.none) :
    (load_profile st tb).1 =
      .ok ({ st with profile_name := "", temp_limit := 280, phases := [] },
           OpOutcome.success) := by
  unfold load_profile
  simp only [hconn, Bool.true_eq_false, if_false, hresp]
  have htr : (PyVal.dict kvs).truthy = true := by
    simp [PyVal.truthy, hne]
  simp only [htr, if_true, PyVal.getd, hname, hlimit, hph]
  rfl

theorem c2_amended_silent_defaults_witness :
    (load_profile ⟨⟨some .wifi, Option.none, some "10.0.0.7", true⟩, "Old", 300, [], []⟩
        ⟨.response 200 (.ok (.dict [("x", .int 1)])), .writeRaise⟩).1 =
      .ok (⟨⟨some .wifi, Option.none, some "10.0.0.7", true⟩, "", 280, [], []⟩,
           OpOutcome.success) :=
  c2_amended_silent_defaults _ _ [("x", .int 1)] rfl rfl (by simp) rfl rfl rfl

/-! ## Theorems for claim C4 -/

/-- C4: the save/load round trip is broken in the source — `save_profile`
writes phase keys `targetC, seconds, Kp, Ki, useTop, useBottom, useIR`, but
`load_profile` hands each echoed phase dict to `add_phase_widget`, which
indexes `target, duration, kp, ki, use_top, use_bottom, use_ir` and
therefore raises `KeyError`.  Concretely: with one Preheat phase, the save
succeeds and posts the wire dict, and the subsequent load of the exact echo
ends in an exception instead of a profile equal to the original. -/
theorem c4_roundtrip_keyerror :
    save_profile
        ⟨⟨some .wifi, Option.none, some "192.168.4.1", true⟩, "Lead-Free BGA", 280,
         [⟨"Preheat", 165, 90, 2, 2/25, true, true, true⟩], []⟩
        ⟨.response 200 (.ok (profileWireDict
            ⟨⟨some .wifi, Option.none, some "192.168.4.1", true⟩, "Lead-Free BGA", 280,
             [⟨"Preheat", 165, 90, 2, 2/25, true, true, true⟩], []⟩)), .writeRaise⟩ =
      (⟨⟨some .wifi, Option.none, some "192.168.4.1", true⟩, "Lead-Free BGA", 280,
        [⟨"Preheat", 165, 90, 2, 2/25, true, true, true⟩], []⟩,
       .success,
       [.httpPost "http://192.168.4.1/preset" (some (profileWireDict
           ⟨⟨some .wifi, Option.none, some "192.168.4.1", true⟩, "Lead-Free BGA", 280,
            [⟨"Preheat", 165, 90, 2, 2/25, true, true, true⟩], []⟩))]) ∧
    (load_profile
        ⟨⟨some .wifi, Option.none, some "192.168.4.1", true⟩, "Lead-Free BGA", 280,
         [⟨"Preheat", 165, 90, 2, 2/25, true, true, true⟩], []⟩
        ⟨.response 200 (.ok (profileWireDict
            ⟨⟨some .wifi, Option.none, some "192.168.4.1", true⟩, "Lead-Free BGA", 280,
             [⟨"Preheat", 165, 90, 2, 2/25, true, true, true⟩], []⟩)), .writeRaise⟩).1 =
      .error () :=
  ⟨rfl, rfl⟩

/-! ## Theorems for claim C7 -/

theorem digitChar_of_ge (n : Nat) (h : 16 ≤ n) : Nat.digitChar n = '*' := by
  have hne : ∀ m : Nat, m < 16 → ¬ n = m := fun m hm heq => by omega
  unfold Nat.digitChar
  rw [if_neg (hne 0 (by norm_num)), if_neg (hne 1 (by norm_num)),
      if_neg (hne 2 (by norm_num)), if_neg (hne 3 (by norm_num)),
      if_neg (hne 4 (by norm_num)), if_neg (hne 5 (by norm_num)),
      if_neg (hne 6 (by norm_num)), if_neg (hne 7 (by norm_num)),
      if_neg (hne 8 (by norm_num)), if_neg (hne 9 (by norm_num)),
      if_neg (hne 10 (by norm_num)), if_neg (hne 11 (by norm_num)),
      if_neg (hne 12 (by norm_num)), if_neg (hne 13 (by norm_num)),
      if_neg (hne 14 (by norm_num)), if_neg (hne 15 (by norm_num))]

theorem digitChar_ne_newline (n : Nat) : Nat.digitChar n ≠ '\n' := by
  by_cases h : n < 16
  · interval_cases n <;> decide
  · rw [digitChar_of_ge n (by omega)]
    decide

theorem newline_not_mem_natStrAux (fuel n : Nat) : '\n' ∉ natStrAux fuel n := by
  induction fuel generalizing n with
  | zero => simp [natStrAux]
  | succ f ih =>
      unfold natStrAux
      split
      · simp
        exact fun h => digitChar_ne_newline _ h.symm
      · intro h
        rcases List.mem_append.1 h with h | h
        · exact ih _ h
        · simp at h
          exact digitChar_ne_newline _ h.symm

theorem strApp_data (a b : String) : (a ++ b).data = a.data ++ b.data := by
  rcases a with ⟨la⟩
  rcases b with ⟨lb⟩
  rfl

theorem strApp_assoc (a b c : String) : a ++ b ++ c = a ++ (b ++ c) := by
  rcases a with ⟨la⟩
  rcases b with ⟨lb⟩
  rcases c with ⟨lc⟩
  show String.mk ((la ++ lb) ++ lc) = String.mk (la ++ (lb ++ lc))
  rw [List.append_assoc]

theorem strApp_length (a b : String) : (a ++ b).length = a.length + b.length := by
  rcases a with ⟨la⟩
  rcases b with ⟨lb⟩
  show (la ++ lb).length = la.length + lb.length
  exact List.length_append la lb

theorem countNL_append (a b : String) : countNL (a ++ b) = countNL a + countNL b := by
  unfold countNL
  rw [strApp_data, List.count_append]

theorem countNL_of_not_mem {s : String} (h : '\n' ∉ s.data) : countNL s = 0 := by
  unfold countNL
  exact List.count_eq_zero.2 h

theorem countNL_natStr (n : Nat) : countNL (natStr n) = 0 :=
  countNL_of_not_mem (newline_not_mem_natStrAux _ _)

theorem countNL_intStr (i : Int) : countNL (intStr i) = 0 := by
  unfold intStr
  split
  · rw [countNL_append, countNL_natStr]
    decide
  · exact countNL_natStr _

theorem countNL_pad2 (n : Nat) : countNL (pad2 n) = 0 := by
  unfold pad2
  split
  · rw [countNL_append, countNL_natStr]
    decide
  · exact countNL_natStr _

theorem countNL_pad4 (n : Nat) : countNL (pad4 n) = 0 := by
  unfold pad4
  by_cases h1 : n < 10
  · rw [if_pos h1, countNL_append, countNL_natStr]
    decide
  · rw [if_neg h1]
    by_cases h2 : n < 100
    · rw [if_pos h2, countNL_append, countNL_natStr]
      decide
    · rw [if_neg h2]
      by_cases h3 : n < 1000
      · rw [if_pos h3, countNL_append, countNL_natStr]
        decide
      · rw [if_neg h3]
        exact countNL_natStr _

theorem countNL_format (t : Timestamp) : countNL t.format = 0 := by
  unfold Timestamp.format
  rw [countNL_append, countNL_append, countNL_append, countNL_append, countNL_append,
      countNL_append, countNL_append, countNL_append, countNL_append, countNL_append,
      countNL_pad4, countNL_pad2, countNL_pad2, countNL_pad2, countNL_pad2, countNL_pad2]
  decide

theorem countNL_fmt1T (v : PyVal) : countNL (fmt1T v) = 0 := by
  cases v with
  | int n =>
      show countNL (intStr n ++ ".0") = 0
      rw [countNL_append, countNL_intStr]
      decide
  | float q =>
      show countNL ((if roundTenths q < 0 then "-" else "") ++
        natStr ((roundTenths q).natAbs / 10) ++ "." ++
        natStr ((roundTenths q).natAbs % 10)) = 0
      rw [countNL_append, countNL_append, countNL_append, countNL_natStr, countNL_natStr]
      have hs : countNL (if roundTenths q < 0 then "-" else "") = 0 := by
        by_cases hq : roundTenths q < 0
        · rw [if_pos hq]
          decide
        · rw [if_neg hq]
          decide
      rw [hs]
      decide
  | none => rfl
  | bool b => rfl
  | str s => rfl
  | list xs => rfl
  | dict kvs => rfl

theorem countNL_phaseField {e : LogEntry} (h : phaseOk (pyLookup e.kvs "phase") = true) :
    countNL (phaseField e) = 0 := by
  unfold phaseField
  rcases hp : pyLookup e.kvs "phase" with _ | v
  · decide
  · rw [hp] at h
    cases v with
    | str p =>
        show countNL p = 0
        unfold countNL
        simpa [phaseOk] using h
    | none => simp [phaseOk] at h
    | bool b => simp [phaseOk] at h
    | int n => simp [phaseOk] at h
    | float q => simp [phaseOk] at h
    | list xs => simp [phaseOk] at h
    | dict kvs => simp [phaseOk] at h

theorem countNL_remainField {e : LogEntry} (h : remainOk (pyLookup e.kvs "remain") = true) :
    countNL (remainField e) = 0 := by
  unfold remainField
  rcases hp : pyLookup e.kvs "remain" with _ | v
  · decide
  · rw [hp] at h
    cases v with
    | int n => exact countNL_intStr n
    | none => simp [remainOk] at h
    | bool b => simp [remainOk] at h
    | float q => simp [remainOk] at h
    | str s => simp [remainOk] at h
    | list xs => simp [remainOk] at h
    | dict kvs => simp [remainOk] at h

theorem natStrAux_single {fuel n : Nat} (hn : n < 10) (hf : 0 < fuel) :
    natStrAux fuel n = [Nat.digitChar n] := by
  cases fuel with
  | zero => omega
  | succ f => simp [natStrAux, hn]

theorem natStrAux_step {fuel n : Nat} (hn : 10 ≤ n) :
    natStrAux (fuel + 1) n = natStrAux fuel (n / 10) ++ [Nat.digitChar (n % 10)] := by
  have : ¬ n < 10 := by omega
  simp [natStrAux, this]

theorem natStr_of_lt_ten {n : Nat} (h : n < 10) :
    natStr n = (⟨[Nat.digitChar n]⟩ : String) := by
  unfold natStr
  rw [natStrAux_single h (by omega)]

theorem natStr_len1 {n : Nat} (h : n < 10) : (natStr n).length = 1 := by
  rw [natStr_of_lt_ten h]
  rfl

theorem natStr_len2 {n : Nat} (h1 : 10 ≤ n) (h2 : n < 100) : (natStr n).length = 2 := by
  unfold natStr
  rw [natStrAux_step h1, natStrAux_single (by omega) (by omega)]
  rfl

theorem natStr_len4 {n : Nat} (h1 : 1000 ≤ n) (h2 : n < 10000) : (natStr n).length = 4 := by
  unfold natStr
  rw [natStrAux_step (by omega)]
  have e1 : n = (n - 1) + 1 := by omega
  rw [show natStrAux n (n / 10) = natStrAux ((n - 1) + 1) (n / 10) by rw [← e1],
      natStrAux_step (by omega)]
  have e2 : n - 1 = (n - 2) + 1 := by omega
  rw [show natStrAux (n - 1) (n / 10 / 10) = natStrAux ((n - 2) + 1) (n / 10 / 10) by
        rw [← e2],
      natStrAux_step (by omega),
      natStrAux_single (show n / 10 / 10 / 10 < 10 by omega) (by omega)]
  rfl

theorem pad2_length {n : Nat} (h : n < 100) : (pad2 n).length = 2 := by
  unfold pad2
  by_cases h1 : n < 10
  · rw [if_pos h1, strApp_length, natStr_len1 h1]
    rfl
  · rw [if_neg h1, natStr_len2 (by omega) h]

theorem pad4_length {n : Nat} (h1 : 1000 ≤ n) (h2 : n < 10000) : (pad4 n).length = 4 := by
  unfold pad4
  rw [if_neg (by omega), if_neg (by omega), if_neg (by omega)]
  exact natStr_len4 h1 h2

theorem format_length {t : Timestamp} (h : t.wf = true) : t.format.length = 19 := by
  have hy : 1000 ≤ t.year ∧ t.year < 10000 ∧ t.month < 100 ∧ t.day < 100 ∧
      t.hour < 100 ∧ t.minute < 100 ∧ t.second < 100 := by
    unfold Timestamp.wf at h
    simp only [Bool.and_eq_true, decide_eq_true_eq] at h
    omega
  unfold Timestamp.format
  rw [strApp_length, strApp_length, strApp_length, strApp_length, strApp_length,
      strApp_length, strApp_length, strApp_length, strApp_length, strApp_length,
      pad4_length hy.1 hy.2.1, pad2_length hy.2.2.1, pad2_length hy.2.2.2.1,
      pad2_length hy.2.2.2.2.1, pad2_length hy.2.2.2.2.2.1, pad2_length hy.2.2.2.2.2.2]
  rfl

theorem oneDecimal_fmt1T {o : Option PyVal} (h : valNumOk o = true) :
    OneDecimal (fmt1T (o.getD (.int 0))) := by
  have key : ∀ v : PyVal, ((∃ n : Int, v = .int n) ∨ (∃ q : ℚ, v = .float q)) →
      OneDecimal (fmt1T v) := by
    rintro v (⟨n, rfl⟩ | ⟨q, rfl⟩)
    · refine ⟨intStr n, 0, by omega, ?_⟩
      show intStr n ++ ".0" = intStr n ++ "." ++ (⟨[Nat.digitChar 0]⟩ : String)
      rw [strApp_assoc]
      rfl
    · refine ⟨(if roundTenths q < 0 then "-" else "") ++
        natStr ((roundTenths q).natAbs / 10), (roundTenths q).natAbs % 10,
        by omega, ?_⟩
      show (if roundTenths q < 0 then "-" else "") ++
          natStr ((roundTenths q).natAbs / 10) ++ "." ++
          natStr ((roundTenths q).natAbs % 10) = _
      rw [natStr_of_lt_ten (show (roundTenths q).natAbs % 10 < 10 by omega)]
  rcases o with _ | v
  · exact key _ (Or.inl ⟨0, rfl⟩)
  · cases v with
    | int n => exact key _ (Or.inl ⟨n, rfl⟩)
    | float q => exact key _ (Or.inr ⟨q, rfl⟩)
    | none => simp [valNumOk] at h
    | bool b => simp [valNumOk] at h
    | str s => simp [valNumOk] at h
    | list xs => simp [valNumOk] at h
    | dict kvs => simp [valNumOk] at h

theorem fmt1_ok {o : Option PyVal} (h : valNumOk o = true) :
    fmt1 (o.getD (.int 0)) = .ok (fmt1T (o.getD (.int 0))) := by
  rcases o with _ | v
  · rfl
  · cases v with
    | int n => rfl
    | float q => rfl
    | none => simp [valNumOk] at h
    | bool b => simp [valNumOk] at h
    | str s => simp [valNumOk] at h
    | list xs => simp [valNumOk] at h
    | dict kvs => simp [valNumOk] at h

theorem exportRow_ok {e : LogEntry} (h : entryWf e = true) :
    exportRow e = .ok (rowStr e) := by
  rcases e with ⟨ts, data⟩
  cases data with
  | dict kvs =>
      unfold entryWf at h
      simp only [Bool.and_eq_true] at h
      obtain ⟨⟨⟨⟨⟨⟨⟨-, htop⟩, hbot⟩, hir⟩, hext⟩, -⟩, -⟩, -⟩ := h
      have htop' : valNumOk (pyLookup kvs "top") = true := htop
      have hbot' : valNumOk (pyLookup kvs "bottom") = true := hbot
      have hir' : valNumOk (pyLookup kvs "ir") = true := hir
      have hext' : valNumOk (pyLookup kvs "external") = true := hext
      show (do
        let t ← fmt1 ((pyLookup kvs "top").getD (.int 0))
        let b ← fmt1 ((pyLookup kvs "bottom").getD (.int 0))
        let i ← fmt1 ((pyLookup kvs "ir").getD (.int 0))
        let x ← fmt1 ((pyLookup kvs "external").getD (.int 0))
        pure (ts.format ++ "," ++ t ++ "," ++ b ++ "," ++ i ++ "," ++ x ++ "," ++
              pyStr ((pyLookup kvs "phase").getD (.str "-")) ++ "," ++
              pyStr ((pyLookup kvs "remain").getD (.int 0)))) =
        .ok (rowStr ⟨ts, .dict kvs⟩)
      rw [fmt1_ok htop', fmt1_ok hbot', fmt1_ok hir', fmt1_ok hext']
      rfl
  | none => simp [entryWf] at h
  | bool b => simp [entryWf] at h
  | int n => simp [entryWf] at h
  | float q => simp [entryWf] at h
  | str s => simp [entryWf] at h
  | list xs => simp [entryWf] at h

theorem countNL_rowStr {e : LogEntry} (h : entryWf e = true) :
    countNL (rowStr e) = 0 := by
  unfold entryWf at h
  simp only [Bool.and_eq_true] at h
  obtain ⟨⟨⟨⟨⟨⟨⟨-, htop⟩, hbot⟩, hir⟩, hext⟩, hph⟩, hrm⟩, -⟩ := h
  unfold rowStr
  rw [countNL_append, countNL_append, countNL_append, countNL_append, countNL_append,
      countNL_append, countNL_append, countNL_append, countNL_append, countNL_append,
      countNL_append, countNL_append, countNL_format]
  unfold tempField
  rw [countNL_fmt1T, countNL_fmt1T, countNL_fmt1T, countNL_fmt1T,
      countNL_phaseField hph, countNL_remainField hrm]
  decide

theorem exportRows_ok (log : List LogEntry) (h : ∀ e ∈ log, entryWf e = true) :
    exportRows log = .ok (rowsConcat log) := by
  induction log with
  | nil => rfl
  | cons e r ih =>
      have he : entryWf e = true := h e (List.mem_cons_self e r)
      have hr : ∀ x ∈ r, entryWf x = true := fun x hx => h x (List.mem_cons_of_mem e hx)
      show (do
        let row ← exportRow e
        let rest ← exportRows r
        pure (row ++ "\n" ++ rest)) = .ok (rowsConcat (e :: r))
      rw [exportRow_ok he, ih hr]
      rfl

theorem countNL_rowsConcat (log : List LogEntry) (h : ∀ e ∈ log, entryWf e = true) :
    countNL (rowsConcat log) = log.length := by
  induction log with
  | nil => rfl
  | cons e r ih =>
      have he : entryWf e = true := h e (List.mem_cons_self e r)
      have hr : ∀ x ∈ r, entryWf x = true := fun x hx => h x (List.mem_cons_of_mem e hx)
      show countNL (rowStr e ++ "\n" ++ rowsConcat r) = (e :: r).length
      have hnl : countNL "\n" = 1 := by decide
      rw [countNL_append, countNL_append, countNL_rowStr he, ih hr, hnl, List.length_cons]
      omega

/-- C7: for every non-empty telemetry log of well-shaped entries, the export
succeeds and writes the header line followed by one newline-terminated row
per entry in log order — exactly `n + 1` lines — with every timestamp
rendered as a 19-character `YYYY-MM-DD HH:MM:SS` string, every temperature
column carrying exactly one decimal place, a missing phase name rendered as
`-`, and the logger state (hence the log) returned unchanged. -/
theorem c7_export_csv (dl : DataLogger) (hne : dl.log_data ≠ [])
    (hwf : ∀ e ∈ dl.log_data, entryWf e = true) :
    export_log dl = (some (.ok (csvHeader ++ "\n" ++ rowsConcat dl.log_data)), dl) ∧
    countNL (csvHeader ++ "\n" ++ rowsConcat dl.log_data) = dl.log_data.length + 1 ∧
    ∀ e ∈ dl.log_data,
      e.timestamp.format.length = 19 ∧
      OneDecimal (tempField e "top") ∧ OneDecimal (tempField e "bottom") ∧
      OneDecimal (tempField e "ir") ∧ OneDecimal (tempField e "external") ∧
      (pyLookup e.kvs "phase" = Option.none → phaseField e = "-") := by
  refine ⟨?_, ?_, ?_⟩
  · rcases dl with ⟨run, log⟩
    cases log with
    | nil => exact absurd rfl hne
    | cons a r =>
        show (some (exportContents (a :: r)), (⟨run, a :: r⟩ : DataLogger)) = _
        have hrows := exportRows_ok (a :: r) hwf
        unfold exportContents
        rw [hrows]
        rfl
  · rw [countNL_append, countNL_append, countNL_rowsConcat _ hwf]
    have h1 : countNL csvHeader = 0 := by decide
    have h2 : countNL "\n" = 1 := by decide
    rw [h1, h2]
    omega
  · intro e he
    have h := hwf e he
    unfold entryWf at h
    simp only [Bool.and_eq_true] at h
    obtain ⟨⟨⟨⟨⟨⟨⟨-, htop⟩, hbot⟩, hir⟩, hext⟩, -⟩, -⟩, hts⟩ := h
    refine ⟨format_length hts, oneDecimal_fmt1T htop, oneDecimal_fmt1T hbot,
            oneDecimal_fmt1T hir, oneDecimal_fmt1T hext, ?_⟩
    intro hnone
    unfold phaseField
    rw [hnone]
    rfl

theorem c7_export_csv_witness :
    export_log ⟨false, [⟨⟨2026, 10, 12, 14, 30, 5⟩,
        .dict [("top", .int 215), ("bottom", .float (2083/10)), ("ir", .int 26),
               ("external", .int 23), ("phase", .str "Soak"), ("remain", .int 45)]⟩]⟩ =
      (some (.ok (csvHeader ++ "\n" ++ rowsConcat [⟨⟨2026, 10, 12, 14, 30, 5⟩,
        .dict [("top", .int 215), ("bottom", .float (2083/10)), ("ir", .int 26),
               ("external", .int 23), ("phase", .str "Soak"), ("remain", .int 45)]⟩])),
       ⟨false, [⟨⟨2026, 10, 12, 14, 30, 5⟩,
        .dict [("top", .int 215), ("bottom", .float (2083/10)), ("ir", .int 26),
               ("external", .int 23), ("phase", .str "Soak"), ("remain", .int 45)]⟩]⟩) ∧
    countNL (csvHeader ++ "\n" ++ rowsConcat [⟨⟨2026, 10, 12, 14, 30, 5⟩,
        .dict [("top", .int 215), ("bottom", .float (2083/10)), ("ir", .int 26),
               ("external", .int 23), ("phase", .str "Soak"), ("remain", .int 45)]⟩]) = 2 := by
  have h := c7_export_csv ⟨false, [⟨⟨2026, 10, 12, 14, 30, 5⟩,
      .dict [("top", .int 215), ("bottom", .float (2083/10)), ("ir", .int 26),
             ("external", .int 23), ("phase", .str "Soak"), ("remain", .int 45)]⟩]⟩
    (by simp) (by decide)
  exact ⟨h.1, h.2.1⟩

end Station
